import Mathlib

/-!
# Verification of the seizure-detection decision core

Shallow embedding of `src/backend/detection.py` (class `SeizureDetector`).
Python floats are modelled as exact rationals (`ℚ`); `np.sqrt` is an external
library function and is abstracted as an explicit parameter `sq : ℚ → ℚ`
(instantiated in concrete witnesses by `ratSqrt`, an exact square root on
perfect-square rationals).  Python dicts are modelled as ordered association
lists, matching Python's insertion-order iteration.  `time.time()` is modelled
by a clock stream `clock : ℕ → ℚ` together with an index counting how many
samples the call has drawn so far, so that each textual `time.time()`
occurrence in the source consumes one sample.

The `movement_history` / `velocity_history` deques of the source are not
modelled: they are written but never read by any decision logic, so they
cannot influence any observable output.

Analyzer-specific extra payload dict keys that no decision logic reads
(`body_height`, `body_width`, `movements`, `avg_velocity`) are not modelled;
the `duration` key of the immobility result and the `pattern_type` key of the
seizure result are kept as optional fields of `DetectionResult`.  Numeric
interpolations inside `reason` f-strings (float formatting) are elided from
the reason text, but the `time.time()` calls they perform are still counted
against the clock stream.
-/

namespace SeizureDetection

/-- One keypoint record; the detection core only ever reads the `x` and `y`
pixel coordinates. -/
structure Point where
  x : ℚ
  y : ℚ
deriving DecidableEq, Repr

/-- A keypoint frame: Python dict from body-part name to keypoint, modelled
as an insertion-ordered association list. -/
abbrev Frame := List (String × Point)

/-- A velocity map: Python dict from body-part name to displacement
magnitude. -/
abbrev VelMap := List (String × ℚ)

/-- Per-analyzer output dict.  `pattern_type` is only populated by the
seizure-pattern analyzer, `duration` only by the immobility analyzer (absent
keys are modelled by the defaults). -/
structure DetectionResult where
  detected : Bool
  confidence : ℚ
  reason : String
  pattern_type : String := ""
  duration : Option ℚ := none
deriving DecidableEq, Repr

/-- The overall decision dict returned by `analyze_movement`.  `details` is
the winning analyzer's full result (absent on the no-alert dict). -/
structure AlertDecision where
  alert : Bool
  type : String
  confidence : ℚ
  description : String
  details : Option DetectionResult := none
deriving DecidableEq, Repr

/-- The mutable state of one `SeizureDetector` instance (`__init__`,
lines 18-23 of the source; the never-read history deques are omitted). -/
structure DetectorState where
  prev_keypoints : Option Frame
  immobility_start_time : Option ℚ
  immobility_detected : Bool
  last_alert_time : ℚ
deriving DecidableEq, Repr

/-- Detector state as built by `__init__`. -/
def init_state : DetectorState :=
  { prev_keypoints := none
    immobility_start_time := none
    immobility_detected := false
    last_alert_time := 0 }

/-! ## Configuration constants (hard-coded in `__init__`) -/

def fall_threshold : ℚ := 0.6
def rapid_movement_threshold : ℚ := 50.0
def immobility_threshold : ℚ := 5.0
def immobility_duration_threshold : ℚ := 10.0
def alert_cooldown : ℚ := 5.0

/-- One entry of the `seizure_patterns` dict. -/
structure PatternCfg where
  name : String
  description : String
  velocity_threshold : ℚ
  pattern_threshold : ℚ
deriving DecidableEq, Repr

def tonic_clonic : PatternCfg :=
  ⟨"tonic_clonic", "Tonic-clonic seizure with rhythmic movements", 80.0, 0.7⟩

def myoclonic : PatternCfg :=
  ⟨"myoclonic", "Myoclonic seizure with sudden jerks", 100.0, 0.6⟩

def atonic : PatternCfg :=
  ⟨"atonic", "Atonic seizure with sudden loss of muscle tone", 20.0, 0.8⟩

/-- The `seizure_patterns` table, in Python dict insertion order. -/
def seizure_patterns : List PatternCfg := [tonic_clonic, myoclonic, atonic]

/-- An exact rational square root: returns the nonnegative square root when
the argument is the square of a rational, and `0` otherwise.  It is used to
instantiate the abstract `sq` parameter in concrete witnesses (all witness
inputs have perfect-square squared displacements). -/
def ratSqrt (q : ℚ) : ℚ :=
  if 0 ≤ q ∧ Nat.sqrt q.num.toNat * Nat.sqrt q.num.toNat = q.num.toNat
      ∧ Nat.sqrt q.den * Nat.sqrt q.den = q.den then
    (Nat.sqrt q.num.toNat : ℚ) / (Nat.sqrt q.den : ℚ)
  else 0

lemma ratSqrt_nonneg (q : ℚ) : 0 ≤ ratSqrt q := by
  unfold ratSqrt
  split
  · positivity
  · exact le_refl 0

lemma ratSqrt_one : ratSqrt 1 = 1 := by
  unfold ratSqrt
  norm_num

/-- `np.sqrt((cx-px)**2 + (cy-py)**2)` (source lines 109 and 200), with
`np.sqrt` abstracted as `sq`. -/
def euclid (sq : ℚ → ℚ) (c p : Point) : ℚ :=
  sq ((c.x - p.x) ^ 2 + (c.y - p.y) ^ 2)

/-! ## `_calculate_velocities` (source lines 96-112) -/

/-- The `important_parts` list (source line 102). -/
def important_parts : List String :=
  ["left_wrist", "right_wrist", "left_ankle", "right_ankle", "nose",
   "left_shoulder", "right_shoulder"]

/-- `_calculate_velocities`: per-part displacement for each important part
present in both the current and the previous frame; empty when there is no
previous frame. -/
def calculate_velocities (sq : ℚ → ℚ) (keypoints : Frame)
    (prev_keypoints : Option Frame) : VelMap :=
  match prev_keypoints with
  | none => []
  | some prev =>
    important_parts.filterMap fun part =>
      match List.lookup part keypoints, List.lookup part prev with
      | some c, some p => some (part, euclid sq c p)
      | _, _ => none

/-! ## `_detect_fall` (source lines 114-157) -/

/-- The `required_parts` list of `_detect_fall` (source line 117). -/
def required_fall_parts : List String :=
  ["nose", "left_hip", "right_hip", "left_ankle", "right_ankle"]

/-- Whether all required fall keypoints are present (`all(part in keypoints
for part in required_parts)`). -/
def fall_parts_present (keypoints : Frame) : Bool :=
  required_fall_parts.all fun part => (List.lookup part keypoints).isSome

/-- `y` coordinate of a part; only ever used under a presence guard, so the
default is never observable. -/
def gety (keypoints : Frame) (part : String) : ℚ :=
  ((List.lookup part keypoints).getD ⟨0, 0⟩).y

/-- `_detect_fall`.  The `try/except` wrapper of the source can only fire on
dynamically ill-typed input, which this well-typed embedding excludes (the
raising variants live in the `E`-suffixed embedding below). -/
def detect_fall (keypoints : Frame) : DetectionResult :=
  if fall_parts_present keypoints then
    let nose_y := gety keypoints "nose"
    let hip_y := (gety keypoints "left_hip" + gety keypoints "right_hip") / 2
    let ankle_y := (gety keypoints "left_ankle" + gety keypoints "right_ankle") / 2
    let body_height := |hip_y - nose_y|
    let body_width := |ankle_y - hip_y|
    let is_horizontal := body_width > body_height * 1.5
    let is_low_position := nose_y > hip_y
    let fall_confidence : ℚ :=
      if is_horizontal ∧ is_low_position then 0.8
      else if is_horizontal then 0.6
      else if is_low_position then 0.4
      else 0
    let reason : String :=
      if is_horizontal ∧ is_low_position then
        "Body in horizontal position with head below hips"
      else if is_horizontal then "Body in horizontal position"
      else if is_low_position then "Head position below hips"
      else ""
    { detected := decide (fall_confidence > fall_threshold)
      confidence := fall_confidence
      reason := reason }
  else
    { detected := false, confidence := 0, reason := "Missing keypoints" }

/-! ## `_detect_rapid_movements` (source lines 159-184) -/

/-- `_detect_rapid_movements`. -/
def detect_rapid_movements (velocities : VelMap) : DetectionResult :=
  let rapid_movements := velocities.filter fun pv =>
    decide (pv.2 > rapid_movement_threshold)
  match rapid_movements with
  | [] =>
    { detected := false, confidence := 0, reason := "No rapid movements detected" }
  | _ :: _ =>
    { detected := true
      confidence := min 0.9 ((rapid_movements.length : ℚ) * 0.3)
      reason := "Detected " ++ toString rapid_movements.length ++ " rapid movements" }

/-! ## `_detect_immobility` (source lines 186-228) -/

/-- The per-part displacements the immobility loop accumulates: one entry for
each part of the current frame that is also present in the previous frame,
in current-frame iteration order (source lines 195-202). -/
def movements (sq : ℚ → ℚ) (keypoints prev : Frame) : List ℚ :=
  keypoints.filterMap fun pr =>
    (List.lookup pr.1 prev).map fun q => euclid sq pr.2 q

/-- The not-detected immobility result (source lines 224-228). -/
def immobility_no_detect : DetectionResult :=
  { detected := false, confidence := 0, reason := "Normal movement detected" }

/-- `_detect_immobility`.  `clock`/`i` model the `time.time()` samples the
call draws: timer start (line 209), duration check (line 213), reason
f-string (line 217) and `duration` key (line 218) each consume one sample;
the returned `ℕ` is the next unused sample index.  The `(true, none)` timer
branch is where Python would raise a `TypeError` (`float - None`); it is
unreachable under the detector's state invariant (`immobility_detected`
implies `immobility_start_time` is set) and returns the fall-through result
here (the raising behaviour is modelled in `detect_immobilityE`). -/
def detect_immobility (sq : ℚ → ℚ) (clock : ℕ → ℚ) (i : ℕ)
    (s : DetectorState) (keypoints : Frame) :
    DetectionResult × DetectorState × ℕ :=
  match s.prev_keypoints with
  | none =>
    ({ detected := false, confidence := 0, reason := "No previous frame" }, s, i)
  | some prev =>
    let moves := movements sq keypoints prev
    if moves.length > 0 then
      let avg_movement := moves.sum / (moves.length : ℚ)
      if avg_movement < immobility_threshold then
        match s.immobility_detected, s.immobility_start_time with
        | true, some st =>
          if clock i - st > immobility_duration_threshold then
            ({ detected := true, confidence := 0.8
               reason := "Freezing episode detected"
               duration := some (clock (i + 2) - st) }, s, i + 3)
          else (immobility_no_detect, s, i + 1)
        | false, _ =>
          let st := clock i
          let s1 := { s with immobility_detected := true
                             immobility_start_time := some st }
          if clock (i + 1) - st > immobility_duration_threshold then
            ({ detected := true, confidence := 0.8
               reason := "Freezing episode detected"
               duration := some (clock (i + 3) - st) }, s1, i + 4)
          else (immobility_no_detect, s1, i + 2)
        | true, none =>
          (immobility_no_detect, s, i + 1)
      else
        (immobility_no_detect,
         { s with immobility_detected := false, immobility_start_time := none }, i)
    else (immobility_no_detect, s, i)

/-! ## `_detect_seizure_patterns` (source lines 230-300) -/

/-- `_calculate_pattern_consistency`. -/
def calculate_pattern_consistency (velocities : VelMap)
    (pattern_config : PatternCfg) : ℚ :=
  if velocities.length = 0 then 0
  else
    -- high_velocity_ratio and velocity_ratio of the source
    let hvr : ℚ :=
      ((velocities.filter fun pv =>
          decide (pv.2 > pattern_config.velocity_threshold)).length : ℚ) /
        (velocities.length : ℚ)
    let avg_velocity := (velocities.map Prod.snd).sum / (velocities.length : ℚ)
    let vr := avg_velocity / pattern_config.velocity_threshold
    min ((hvr * 0.6) + (min vr 1.0 * 0.4)) 1.0

/-- `_analyze_seizure_pattern` (only the fields the caller reads). -/
def analyze_seizure_pattern (velocities : VelMap)
    (pattern_config : PatternCfg) : DetectionResult :=
  if velocities.length > 0 then
    let pattern_consistency := calculate_pattern_consistency velocities pattern_config
    if pattern_consistency > pattern_config.pattern_threshold then
      { detected := true, confidence := pattern_consistency
        reason := "", pattern_type := pattern_config.description }
    else
      { detected := false, confidence := 0, reason := ""
        pattern_type := pattern_config.description }
  else
    { detected := false, confidence := 0, reason := ""
      pattern_type := pattern_config.description }

/-- Python's `max(xs, key=k)` over a nonempty list: keeps the first element
among those attaining the maximal key (replacement only on strict
improvement). -/
def pick_best {α : Type} (key : α → ℚ) (h : α) (t : List α) : α :=
  t.foldl (fun b x => if key x > key b then x else b) h

/-- `_detect_seizure_patterns`. -/
def detect_seizure_patterns (velocities : VelMap) : DetectionResult :=
  let detected_patterns :=
    (seizure_patterns.map (analyze_seizure_pattern velocities)).filter
      fun r => r.detected
  match detected_patterns with
  | [] =>
    { detected := false, confidence := 0, reason := "No seizure patterns detected" }
  | h :: t =>
    let best_pattern := pick_best DetectionResult.confidence h t
    { detected := true
      confidence := best_pattern.confidence
      reason := "Detected " ++ best_pattern.pattern_type ++ " seizure pattern"
      pattern_type := best_pattern.pattern_type }

/-! ## `_determine_alert` and `_create_no_alert_result` (source lines 302-336) -/

/-- `_create_no_alert_result`. -/
def no_alert_result : AlertDecision :=
  { alert := false, type := "none", confidence := 0
    description := "No abnormal movements detected" }

/-- `_determine_alert` over the (type, result) pairs in dict insertion
order. -/
def determine_alert (detection_results : List (String × DetectionResult)) :
    AlertDecision :=
  let alerts := detection_results.filter fun tr => tr.2.detected
  match alerts with
  | [] => no_alert_result
  | h :: t =>
    let best_alert := pick_best (fun tr => tr.2.confidence) h t
    { alert := true
      type := best_alert.1
      confidence := best_alert.2.confidence
      description := best_alert.2.reason
      details := some best_alert.2 }

/-! ## `analyze_movement` (source lines 50-94) -/

/-- The four analyzer invocations of `analyze_movement` (source lines 70-83),
in dict insertion order, together with the state as mutated by
`_detect_immobility`.  The immobility analyzer draws `time.time()` samples
starting at index 1 (index 0 is `current_time`, line 64). -/
def run_analyses (sq : ℚ → ℚ) (clock : ℕ → ℚ) (s : DetectorState)
    (keypoints : Frame) : List (String × DetectionResult) × DetectorState :=
  let velocities := calculate_velocities sq keypoints s.prev_keypoints
  let fall := detect_fall keypoints
  let rapid := detect_rapid_movements velocities
  let imm := detect_immobility sq clock 1 s keypoints
  let seiz := detect_seizure_patterns velocities
  ([("fall", fall), ("rapid_movements", rapid), ("immobility", imm.1),
    ("seizure_patterns", seiz)], imm.2.1)

/-- `analyze_movement`.  The input is `none` when `keypoints_data is None`,
`some none` when the dict lacks the `'keypoints'` key, and `some (some kp)`
otherwise. -/
def analyze_movement (sq : ℚ → ℚ) (clock : ℕ → ℚ) (s : DetectorState)
    (keypoints_data : Option (Option Frame)) : AlertDecision × DetectorState :=
  match keypoints_data with
  | none => (no_alert_result, s)
  | some none => (no_alert_result, s)
  | some (some keypoints) =>
    let current_time := clock 0
    if current_time - s.last_alert_time < alert_cooldown then
      (no_alert_result, s)
    else
      let ra := run_analyses sq clock s keypoints
      let alert_result := determine_alert ra.1
      let s2 := { ra.2 with prev_keypoints := some keypoints }
      let s3 :=
        if alert_result.alert then { s2 with last_alert_time := current_time }
        else s2
      (alert_result, s3)

/-- A whole monitoring run: each call supplies its own clock stream (so call
`k`'s `time.time()` samples are `(calls.get k).1 0`, `… 1`, …) and its
keypoints data; returns the decisions in call order and the final state. -/
def run_detector (sq : ℚ → ℚ) (s : DetectorState)
    (calls : List ((ℕ → ℚ) × Option (Option Frame))) :
    List AlertDecision × DetectorState :=
  match calls with
  | [] => ([], s)
  | c :: rest =>
    let r := analyze_movement sq c.1 s c.2
    let rr := run_detector sq r.2 rest
    (r.1 :: rr.1, rr.2)

/-! ## Dynamically-typed embedding (exception behaviour)

The source is dynamically typed: the `keypoints` value stored under the
`'keypoints'` key (and hence also a stored `prev_keypoints`) need not be a
dict of keypoint records.  `KVal.bad` models any such non-mapping value
(e.g. an `int`): Python raises `TypeError` on `part in value`, on iterating
it, and on subscripting it.  The `E`-suffixed functions mirror the source's
control flow including the points where such an exception escapes
`analyze_movement` (only `_detect_fall` is wrapped in `try/except`). -/

/-- A dynamically-typed keypoints value. -/
inductive KVal where
  | frame (f : Frame)
  | bad
deriving DecidableEq, Repr

/-- The Python exception that escapes. -/
inductive PyErr where
  | typeError
deriving DecidableEq, Repr

/-- Detector state whose stored previous frame is an arbitrary dynamic
value. -/
structure StateE where
  prev_keypoints : Option KVal
  immobility_start_time : Option ℚ
  immobility_detected : Bool
  last_alert_time : ℚ
deriving DecidableEq, Repr

/-- The input to `analyze_movement`: `keypoints_data` may be `None`, a
non-dict value (on which even the `'keypoints' not in keypoints_data` test
raises), or a dict with or without the `'keypoints'` key. -/
inductive InputE where
  | noneData
  | badData
  | dict (kv : Option KVal)
deriving DecidableEq, Repr

/-- `_calculate_velocities` over dynamic values.  The `prev_keypoints is
None` early return happens before `keypoints` is touched; afterwards the
loop evaluates `part in keypoints` (raising on a non-mapping) and — only
when that succeeds — `part in self.prev_keypoints` (short-circuit `and`), so
a bad previous value only raises when some important part is present in the
current frame. -/
def calculate_velocitiesE (sq : ℚ → ℚ) (kv : KVal) (prev : Option KVal) :
    Except PyErr VelMap :=
  match prev with
  | none => .ok []
  | some pv =>
    match kv, pv with
    | .bad, _ => .error .typeError
    | .frame f, .bad =>
      if important_parts.all fun part => (List.lookup part f).isNone then .ok []
      else .error .typeError
    | .frame f, .frame p => .ok (calculate_velocities sq f (some p))

/-- `_detect_fall` over dynamic values: its body is wrapped in `try/except`,
so a raising membership test yields the error result instead of
propagating. -/
def detect_fallE (kv : KVal) : DetectionResult :=
  match kv with
  | .frame f => detect_fall f
  | .bad =>
    { detected := false, confidence := 0
      reason := "Error: argument of type int is not iterable" }

/-- Condition under which `_detect_immobility` reaches
`time.time() - self.immobility_start_time` with the start time still `None`
(raising `TypeError`): some comparable part, average movement below the
threshold, and a timer marked active without a start time. -/
def immobility_raises (sq : ℚ → ℚ) (s : StateE) (f p : Frame) : Bool :=
  let moves := movements sq f p
  decide (moves.length > 0) &&
    decide (moves.sum / (moves.length : ℚ) < immobility_threshold) &&
    s.immobility_detected && s.immobility_start_time.isNone

/-- `_detect_immobility` over dynamic values: iterating a bad current value
raises; testing membership of a part in a bad previous value raises (only
reached when the current frame has at least one part); the `None` start-time
subtraction raises under `immobility_raises`.  Otherwise the result is that
of the well-typed embedding. -/
def detect_immobilityE (sq : ℚ → ℚ) (clock : ℕ → ℚ) (i : ℕ) (s : StateE)
    (kv : KVal) : Except PyErr (DetectionResult × StateE × ℕ) :=
  match s.prev_keypoints with
  | none =>
    .ok ({ detected := false, confidence := 0, reason := "No previous frame" }, s, i)
  | some pv =>
    match kv, pv with
    | .bad, _ => .error .typeError
    | .frame f, .bad =>
      if f.isEmpty then .ok (immobility_no_detect, s, i)
      else .error .typeError
    | .frame f, .frame p =>
      if immobility_raises sq s f p then .error .typeError
      else
        let sT : DetectorState :=
          ⟨some p, s.immobility_start_time, s.immobility_detected, s.last_alert_time⟩
        let r := detect_immobility sq clock i sT f
        .ok (r.1,
             { s with immobility_detected := r.2.1.immobility_detected
                      immobility_start_time := r.2.1.immobility_start_time },
             r.2.2)

/-- `analyze_movement` over dynamic values. -/
def analyze_movementE (sq : ℚ → ℚ) (clock : ℕ → ℚ) (s : StateE)
    (keypoints_data : InputE) : Except PyErr (AlertDecision × StateE) :=
  match keypoints_data with
  | .noneData => .ok (no_alert_result, s)
  | .badData => .error .typeError
  | .dict none => .ok (no_alert_result, s)
  | .dict (some kv) =>
    let current_time := clock 0
    if current_time - s.last_alert_time < alert_cooldown then
      .ok (no_alert_result, s)
    else do
      let velocities ← calculate_velocitiesE sq kv s.prev_keypoints
      let fall := detect_fallE kv
      let rapid := detect_rapid_movements velocities
      let imm ← detect_immobilityE sq clock 1 s kv
      let seiz := detect_seizure_patterns velocities
      let alert_result := determine_alert
        [("fall", fall), ("rapid_movements", rapid), ("immobility", imm.1),
         ("seizure_patterns", seiz)]
      let s2 := { imm.2.1 with prev_keypoints := some kv }
      let s3 :=
        if alert_result.alert then { s2 with last_alert_time := current_time }
        else s2
      .ok (alert_result, s3)

/-- A dynamic value that is a well-formed frame. -/
def KVal.good : KVal → Bool
  | .frame _ => true
  | .bad => false

/-- Well-formedness of a dynamic detector state: any stored previous frame
is an actual frame, and an active immobility timer has a start time.  The
freshly-constructed state satisfies it and every call with well-formed
keypoints data preserves it, but it is not an invariant of arbitrary runs:
a call carrying a malformed value on a detector with no previous frame
returns normally and stores that value as the previous frame, leaving a
state that violates it. -/
def StateE.wf (s : StateE) : Prop :=
  (∀ kv, s.prev_keypoints = some kv → kv.good = true) ∧
    (s.immobility_detected = true → s.immobility_start_time.isSome = true)

/-- Well-formedness of the inbound keypoints data: absent, or a dict whose
`'keypoints'` value (if any) is an actual frame. -/
def InputE.wf : InputE → Prop
  | .noneData => True
  | .badData => False
  | .dict none => True
  | .dict (some kv) => kv.good = true

/-! ## Concrete inputs used by witnesses and counterexamples -/

/-- A frame whose body is horizontal but whose head is not below the hips:
`body_height = 0`, `body_width = 10`, so confidence is exactly 0.6. -/
def horizontal_frame : Frame :=
  [("nose", ⟨0, 10⟩), ("left_hip", ⟨0, 10⟩), ("right_hip", ⟨0, 10⟩),
   ("left_ankle", ⟨0, 20⟩), ("right_ankle", ⟨0, 20⟩)]

/-- A frame that is horizontal with the head below the hips: confidence
0.8. -/
def fall_frame : Frame :=
  [("nose", ⟨0, 12⟩), ("left_hip", ⟨0, 10⟩), ("right_hip", ⟨0, 10⟩),
   ("left_ankle", ⟨0, 30⟩), ("right_ankle", ⟨0, 30⟩)]

/-! ## General helper lemmas -/

lemma detect_fall_horizontal_frame :
    detect_fall horizontal_frame =
      { detected := false, confidence := 0.6, reason := "Body in horizontal position" } := by
  have hp : fall_parts_present horizontal_frame = true := by decide
  have h1 : gety horizontal_frame "nose" = 10 := by decide
  have h2 : gety horizontal_frame "left_hip" = 10 := by decide
  have h3 : gety horizontal_frame "right_hip" = 10 := by decide
  have h4 : gety horizontal_frame "left_ankle" = 20 := by decide
  have h5 : gety horizontal_frame "right_ankle" = 20 := by decide
  unfold detect_fall
  rw [hp]
  simp only [h1, h2, h3, h4, h5, if_true]
  norm_num [fall_threshold]

lemma detect_fall_fall_frame :
    detect_fall fall_frame =
      { detected := true, confidence := 0.8
        reason := "Body in horizontal position with head below hips" } := by
  have hp : fall_parts_present fall_frame = true := by decide
  have h1 : gety fall_frame "nose" = 12 := by decide
  have h2 : gety fall_frame "left_hip" = 10 := by decide
  have h3 : gety fall_frame "right_hip" = 10 := by decide
  have h4 : gety fall_frame "left_ankle" = 30 := by decide
  have h5 : gety fall_frame "right_ankle" = 30 := by decide
  unfold detect_fall
  rw [hp]
  simp only [h1, h2, h3, h4, h5, if_true]
  norm_num [fall_threshold]

lemma pick_best_mem {α : Type} (key : α → ℚ) (h : α) (t : List α) :
    pick_best key h t ∈ h :: t := by
  induction t generalizing h with
  | nil => simp [pick_best]
  | cons x xs ih =>
    unfold pick_best at ih ⊢
    rw [List.foldl_cons]
    by_cases hc : key x > key h
    · rw [if_pos hc]
      have h1 := ih x
      simp only [List.mem_cons] at h1 ⊢
      tauto
    · rw [if_neg hc]
      have h1 := ih h
      simp only [List.mem_cons] at h1 ⊢
      tauto

/-- `_detect_fall` sets `detected` exactly when the confidence strictly
exceeds the fall threshold, on every input (when required keypoints are
missing the confidence is 0, which is not above the threshold either). -/
lemma detect_fall_detected_eq (kp : Frame) :
    (detect_fall kp).detected = decide (fall_threshold < (detect_fall kp).confidence) := by
  unfold detect_fall
  split <;> (first
    | (simp [fall_threshold]; norm_num)
    | simp [fall_threshold])

lemma detect_fall_confidence_cases (kp : Frame) :
    (detect_fall kp).confidence = 0 ∨ (detect_fall kp).confidence = 0.4 ∨
      (detect_fall kp).confidence = 0.6 ∨ (detect_fall kp).confidence = 0.8 := by
  unfold detect_fall
  split
  · simp only [gt_iff_lt]
    split_ifs <;> simp
  · simp

lemma detect_fall_bounds (kp : Frame) :
    0 ≤ (detect_fall kp).confidence ∧ (detect_fall kp).confidence ≤ 1 ∧
      ((detect_fall kp).detected = false →
        (detect_fall kp).confidence ≤ fall_threshold) := by
  have hc := detect_fall_confidence_cases kp
  have hd := detect_fall_detected_eq kp
  refine ⟨?_, ?_, ?_⟩
  · rcases hc with h | h | h | h <;> rw [h] <;> norm_num
  · rcases hc with h | h | h | h <;> rw [h] <;> norm_num
  · intro hfalse
    rw [hfalse] at hd
    have : ¬ (fall_threshold < (detect_fall kp).confidence) := by
      simpa using hd.symm
    linarith [not_lt.mp this]

lemma detect_rapid_movements_bounds (vel : VelMap) :
    0 ≤ (detect_rapid_movements vel).confidence ∧
      (detect_rapid_movements vel).confidence ≤ 1 ∧
      ((detect_rapid_movements vel).detected = false →
        (detect_rapid_movements vel).confidence = 0) := by
  unfold detect_rapid_movements
  rcases hr : List.filter (fun pv => decide (pv.2 > rapid_movement_threshold)) vel
      with _ | ⟨a, l⟩ <;> simp only [hr]
  · simp
  · refine ⟨?_, ?_, by simp⟩
    · refine le_min (by norm_num) ?_
      positivity
    · exact le_trans (min_le_left _ _) (by norm_num)

lemma detect_immobility_result_cases (sq : ℚ → ℚ) (clock : ℕ → ℚ) (i : ℕ)
    (s : DetectorState) (kp : Frame) :
    ((detect_immobility sq clock i s kp).1.detected = true ∧
       (detect_immobility sq clock i s kp).1.confidence = 0.8) ∨
    ((detect_immobility sq clock i s kp).1.detected = false ∧
       (detect_immobility sq clock i s kp).1.confidence = 0) := by
  unfold detect_immobility
  rcases hp : s.prev_keypoints with _ | prev <;>
    rcases hd : s.immobility_detected <;>
    rcases hs : s.immobility_start_time with _ | st <;>
    simp only [hp, hd, hs] <;>
    first
      | (split_ifs <;> simp [immobility_no_detect, hp, hd, hs])
      | simp [immobility_no_detect, hp, hd, hs]

/-- `_detect_immobility` never touches `prev_keypoints` or
`last_alert_time`. -/
lemma detect_immobility_frame (sq : ℚ → ℚ) (clock : ℕ → ℚ) (i : ℕ)
    (s : DetectorState) (kp : Frame) :
    (detect_immobility sq clock i s kp).2.1.prev_keypoints = s.prev_keypoints ∧
    (detect_immobility sq clock i s kp).2.1.last_alert_time = s.last_alert_time := by
  unfold detect_immobility
  rcases hp : s.prev_keypoints with _ | prev <;>
    rcases hd : s.immobility_detected <;>
    rcases hs : s.immobility_start_time with _ | st <;>
    simp only [hp, hd, hs] <;>
    first
      | (split_ifs <;> simp [immobility_no_detect, hp, hd, hs])
      | simp [immobility_no_detect, hp, hd, hs]

/-- `_detect_immobility` preserves the timer invariant: if the resulting
state has the timer marked active, it has a start time. -/
lemma detect_immobility_invariant (sq : ℚ → ℚ) (clock : ℕ → ℚ) (i : ℕ)
    (s : DetectorState) (kp : Frame)
    (hinv : s.immobility_detected = true → s.immobility_start_time.isSome = true) :
    (detect_immobility sq clock i s kp).2.1.immobility_detected = true →
    (detect_immobility sq clock i s kp).2.1.immobility_start_time.isSome = true := by
  unfold detect_immobility
  rcases hp : s.prev_keypoints with _ | prev <;>
    rcases hd : s.immobility_detected <;>
    rcases hs : s.immobility_start_time with _ | st <;>
    (try simp only [hp, hd, hs]) <;>
    first
      | (split_ifs <;> simp [immobility_no_detect, hp, hd, hs])
      | simp [immobility_no_detect, hp, hd, hs]
  all_goals
    have hfalse := hinv hd
    rw [hs] at hfalse
    simp at hfalse

/-- Membership description of `_calculate_velocities` with a previous
frame. -/
lemma calculate_velocities_mem (sq : ℚ → ℚ) (f p : Frame) (part : String)
    (v : ℚ) :
    (part, v) ∈ calculate_velocities sq f (some p) ↔
      part ∈ important_parts ∧ ∃ c q, List.lookup part f = some c ∧
        List.lookup part p = some q ∧ v = euclid sq c q := by
  unfold calculate_velocities
  rw [List.mem_filterMap]
  constructor
  · rintro ⟨a, ha, hg⟩
    cases hc : List.lookup a f with
    | none => rw [hc] at hg; simp at hg
    | some c =>
      cases hq : List.lookup a p with
      | none => rw [hc, hq] at hg; simp at hg
      | some q =>
        rw [hc, hq] at hg
        simp only [Option.some.injEq, Prod.mk.injEq] at hg
        obtain ⟨rfl, rfl⟩ := hg
        exact ⟨ha, c, q, hc, hq, rfl⟩
  · rintro ⟨hpart, c, q, hc, hq, rfl⟩
    exact ⟨part, hpart, by rw [hc, hq]⟩

lemma calculate_velocities_nonneg (sq : ℚ → ℚ) (hsq : ∀ q, 0 ≤ sq q)
    (f : Frame) (prev : Option Frame) (part : String) (v : ℚ)
    (hm : (part, v) ∈ calculate_velocities sq f prev) : 0 ≤ v := by
  cases prev with
  | none => simp [calculate_velocities] at hm
  | some p =>
    obtain ⟨-, c, q, -, -, rfl⟩ := (calculate_velocities_mem sq f p part v).mp hm
    exact hsq _

lemma calculate_pattern_consistency_bounds (vel : VelMap) (cfg : PatternCfg)
    (hv : ∀ pr ∈ vel, 0 ≤ Prod.snd pr) (hcfg : 0 < cfg.velocity_threshold) :
    0 ≤ calculate_pattern_consistency vel cfg ∧
      calculate_pattern_consistency vel cfg ≤ 1 := by
  unfold calculate_pattern_consistency
  split
  · norm_num
  · dsimp only
    have hhvr : (0:ℚ) ≤
        ((vel.filter fun pv => decide (pv.2 > cfg.velocity_threshold)).length : ℚ) /
          (vel.length : ℚ) := div_nonneg (Nat.cast_nonneg _) (Nat.cast_nonneg _)
    have hsum : (0:ℚ) ≤ (vel.map Prod.snd).sum := by
      refine List.sum_nonneg ?_
      intro x hx
      obtain ⟨pr, hpr, rfl⟩ := List.mem_map.mp hx
      exact hv pr hpr
    have havg : (0:ℚ) ≤ (vel.map Prod.snd).sum / (vel.length : ℚ) :=
      div_nonneg hsum (by positivity)
    have hvr : (0:ℚ) ≤
        (vel.map Prod.snd).sum / (vel.length : ℚ) / cfg.velocity_threshold :=
      div_nonneg havg (le_of_lt hcfg)
    have hminvr : (0:ℚ) ≤
        min ((vel.map Prod.snd).sum / (vel.length : ℚ) / cfg.velocity_threshold)
          1.0 := by
      refine le_min hvr ?_
      norm_num
    constructor
    · exact le_min (by linarith) (by norm_num)
    · exact le_trans (min_le_right _ _) (by norm_num)

lemma analyze_seizure_pattern_bounds (vel : VelMap) (cfg : PatternCfg)
    (hv : ∀ pr ∈ vel, 0 ≤ Prod.snd pr) (hcfg : 0 < cfg.velocity_threshold) :
    0 ≤ (analyze_seizure_pattern vel cfg).confidence ∧
      (analyze_seizure_pattern vel cfg).confidence ≤ 1 ∧
      ((analyze_seizure_pattern vel cfg).detected = false →
        (analyze_seizure_pattern vel cfg).confidence = 0) := by
  unfold analyze_seizure_pattern
  have hb := calculate_pattern_consistency_bounds vel cfg hv hcfg
  dsimp only
  split_ifs
  · exact ⟨hb.1, hb.2, by simp⟩
  · simp
  · simp

lemma detect_seizure_patterns_bounds (vel : VelMap)
    (hv : ∀ pr ∈ vel, 0 ≤ Prod.snd pr) :
    0 ≤ (detect_seizure_patterns vel).confidence ∧
      (detect_seizure_patterns vel).confidence ≤ 1 ∧
      ((detect_seizure_patterns vel).detected = false →
        (detect_seizure_patterns vel).confidence = 0) := by
  unfold detect_seizure_patterns
  rcases hf : (seizure_patterns.map (analyze_seizure_pattern vel)).filter
      (fun r => r.detected) with _ | ⟨h0, t⟩ <;> simp only [hf]
  · simp
  · refine ⟨?_, ?_, by simp⟩ <;>
    · have hb := pick_best_mem DetectionResult.confidence h0 t
      rw [← hf] at hb
      have hb2 := List.mem_of_mem_filter hb
      obtain ⟨cfg, hcfg_mem, heq⟩ := List.mem_map.mp hb2
      have hcfgpos : 0 < cfg.velocity_threshold := by
        simp only [seizure_patterns, List.mem_cons, List.not_mem_nil, or_false] at hcfg_mem
        rcases hcfg_mem with rfl | rfl | rfl <;>
          norm_num [tonic_clonic, myoclonic, atonic]
      have hbounds := analyze_seizure_pattern_bounds vel cfg hv hcfgpos
      rw [heq] at hbounds
      first
        | exact hbounds.1
        | exact hbounds.2.1

lemma determine_alert_bounds (results : List (String × DetectionResult))
    (hres : ∀ pr ∈ results, 0 ≤ (Prod.snd pr).confidence ∧
      (Prod.snd pr).confidence ≤ 1) :
    0 ≤ (determine_alert results).confidence ∧
      (determine_alert results).confidence ≤ 1 ∧
      ((determine_alert results).alert = false →
        (determine_alert results).confidence = 0) := by
  unfold determine_alert
  rcases hf : results.filter (fun tr => tr.2.detected) with _ | ⟨h0, t⟩ <;>
    simp only [hf]
  · simp [no_alert_result]
  · refine ⟨?_, ?_, by simp⟩ <;>
    · have hb := pick_best_mem (fun tr => tr.2.confidence) h0 t
      rw [← hf] at hb
      have hb2 := List.mem_of_mem_filter hb
      have hbounds := hres _ hb2
      first
        | exact hbounds.1
        | exact hbounds.2

/-! ## Claim C1 -/

/-- C1 counterexample: on a horizontal-only frame the fall analyzer invoked
by `analyze_movement` returns `detected = false` with confidence 0.6 ≠ 0,
refuting "whenever `detected` is false the confidence equals 0". -/
theorem C1_counterexample :
    List.lookup "fall" (run_analyses ratSqrt (fun _ => 10) init_state
        horizontal_frame).1 =
      some { detected := false, confidence := 0.6
             reason := "Body in horizontal position" } ∧
    (0.6 : ℚ) ≠ 0 := by
  constructor
  · have h : List.lookup "fall" (run_analyses ratSqrt (fun _ => 10) init_state
        horizontal_frame).1 = some (detect_fall horizontal_frame) := rfl
    rw [h, detect_fall_horizontal_frame]
  · norm_num

/-- C1 amended: every per-analyzer confidence and the decision confidence
lie in `[0,1]`; a false `alert` and a false `detected` of the rapid,
immobility and seizure analyzers force confidence 0, but the fall analyzer
may return `detected = false` with a nonzero confidence not exceeding the
fall threshold. -/
theorem C1_amended (sq : ℚ → ℚ) (hsq : ∀ q, 0 ≤ sq q) (clock : ℕ → ℚ)
    (s : DetectorState) (kp : Frame) (inp : Option (Option Frame)) :
    (∀ nm r, (nm, r) ∈ (run_analyses sq clock s kp).1 →
       0 ≤ r.confidence ∧ r.confidence ≤ 1 ∧
         (r.detected = false →
           r.confidence = 0 ∨ (nm = "fall" ∧ r.confidence ≤ fall_threshold))) ∧
    (0 ≤ (analyze_movement sq clock s inp).1.confidence ∧
     (analyze_movement sq clock s inp).1.confidence ≤ 1 ∧
     ((analyze_movement sq clock s inp).1.alert = false →
       (analyze_movement sq clock s inp).1.confidence = 0)) := by
  have hvel : ∀ (kp1 : Frame) pr, pr ∈ calculate_velocities sq kp1 s.prev_keypoints →
      0 ≤ Prod.snd pr := by
    intro kp1 pr hpr
    exact calculate_velocities_nonneg sq hsq kp1 s.prev_keypoints pr.1 pr.2 hpr
  have hmain : ∀ nm r (kp1 : Frame), (nm, r) ∈ (run_analyses sq clock s kp1).1 →
      0 ≤ r.confidence ∧ r.confidence ≤ 1 ∧
        (r.detected = false →
          r.confidence = 0 ∨ (nm = "fall" ∧ r.confidence ≤ fall_threshold)) := by
    intro nm r kp1 h
    simp only [run_analyses, List.mem_cons, List.not_mem_nil, or_false,
      Prod.mk.injEq] at h
    rcases h with ⟨rfl, rfl⟩ | ⟨rfl, rfl⟩ | ⟨rfl, rfl⟩ | ⟨rfl, rfl⟩
    · have hb := detect_fall_bounds kp1
      exact ⟨hb.1, hb.2.1, fun hfalse => Or.inr ⟨rfl, hb.2.2 hfalse⟩⟩
    · have hb := detect_rapid_movements_bounds
        (calculate_velocities sq kp1 s.prev_keypoints)
      exact ⟨hb.1, hb.2.1, fun hfalse => Or.inl (hb.2.2 hfalse)⟩
    · rcases detect_immobility_result_cases sq clock 1 s kp1 with ⟨hd, hc⟩ | ⟨hd, hc⟩
      · rw [hc]
        exact ⟨by norm_num, by norm_num, fun hfalse => by rw [hd] at hfalse; cases hfalse⟩
      · rw [hc]
        exact ⟨le_refl 0, by norm_num, fun _ => Or.inl rfl⟩
    · have hb := detect_seizure_patterns_bounds
        (calculate_velocities sq kp1 s.prev_keypoints) (hvel kp1)
      exact ⟨hb.1, hb.2.1, fun hfalse => Or.inl (hb.2.2 hfalse)⟩
  refine ⟨fun nm r h => hmain nm r kp h, ?_⟩
  rcases inp with _ | inp1
  · simp [analyze_movement, no_alert_result]
  rcases inp1 with _ | kp1
  · simp [analyze_movement, no_alert_result]
  by_cases hg : clock 0 - s.last_alert_time < alert_cooldown
  · simp [analyze_movement, hg, no_alert_result]
  · have h1 : (analyze_movement sq clock s (some (some kp1))).1 =
        determine_alert (run_analyses sq clock s kp1).1 := by
      simp only [analyze_movement, if_neg hg]
    rw [h1]
    refine determine_alert_bounds _ ?_
    intro pr hpr
    have := hmain pr.1 pr.2 kp1 hpr
    exact ⟨this.1, this.2.1⟩

/-- C1 witness. -/
theorem C1_witness :
    (∀ q, 0 ≤ ratSqrt q) ∧
    (0 ≤ (analyze_movement ratSqrt (fun _ => 10) init_state
        (some (some horizontal_frame))).1.confidence ∧
     (analyze_movement ratSqrt (fun _ => 10) init_state
        (some (some horizontal_frame))).1.confidence ≤ 1 ∧
     ((analyze_movement ratSqrt (fun _ => 10) init_state
        (some (some horizontal_frame))).1.alert = false →
       (analyze_movement ratSqrt (fun _ => 10) init_state
        (some (some horizontal_frame))).1.confidence = 0)) :=
  ⟨ratSqrt_nonneg,
   (C1_amended ratSqrt ratSqrt_nonneg (fun _ => 10) init_state horizontal_frame
     (some (some horizontal_frame))).2⟩

/-! ## Claim C2 -/

/-- C2 counterexample: a call whose frame is present but whose cooldown gate
fires does NOT update `prev_keypoints` (the source returns before line 89),
refuting the claimed unconditional update. -/
theorem C2_counterexample :
    (analyze_movement ratSqrt (fun _ => 1) init_state
        (some (some fall_frame))).2.prev_keypoints = none ∧
    (none : Option Frame) ≠ some fall_frame := by
  constructor
  · norm_num [analyze_movement, init_state, alert_cooldown]
  · simp

/-- C2 amended: `prev_keypoints` is updated to the current frame on every
call with a present frame in which the cooldown gate does not fire; when the
gate fires the whole state (including `prev_keypoints`) is left unchanged
and the no-alert decision is returned. -/
theorem C2_amended (sq : ℚ → ℚ) (clock : ℕ → ℚ) (s : DetectorState)
    (kp : Frame) :
    (¬ (clock 0 - s.last_alert_time < alert_cooldown) →
       (analyze_movement sq clock s (some (some kp))).2.prev_keypoints = some kp) ∧
    (clock 0 - s.last_alert_time < alert_cooldown →
       analyze_movement sq clock s (some (some kp)) = (no_alert_result, s)) := by
  constructor
  · intro h
    simp only [analyze_movement, if_neg h]
    by_cases ha : (determine_alert (run_analyses sq clock s kp).1).alert
    · simp [ha]
    · simp [ha]
  · intro h
    simp only [analyze_movement, if_pos h]

/-- C2 witness. -/
theorem C2_witness :
    ¬ ((fun _ : ℕ => (10:ℚ)) 0 - init_state.last_alert_time < alert_cooldown) ∧
    (analyze_movement ratSqrt (fun _ => 10) init_state
        (some (some fall_frame))).2.prev_keypoints = some fall_frame :=
  ⟨by norm_num [init_state, alert_cooldown],
   (C2_amended ratSqrt (fun _ => 10) init_state fall_frame).1
     (by norm_num [init_state, alert_cooldown])⟩

/-! ## Claim C3 -/

/-- C3 counterexample: `left_hip` is present in both frames (with different
positions), yet the velocity map has no entry for it — the source only
covers the seven `important_parts`. -/
theorem C3_counterexample :
    (List.lookup "left_hip" [(("left_hip" : String), (⟨3, 4⟩ : Point))]).isSome
        = true ∧
    (List.lookup "left_hip" [(("left_hip" : String), (⟨0, 0⟩ : Point))]).isSome
        = true ∧
    calculate_velocities ratSqrt [("left_hip", ⟨3, 4⟩)]
        (some [("left_hip", ⟨0, 0⟩)]) = [] := by
  refine ⟨by decide, by decide, by decide⟩

/-- C3 amended: with no previous frame the velocity map is empty; with a
previous frame it contains exactly one entry per part that is among the
seven tracked `important_parts` and present in both frames, whose value is
the (abstracted) Euclidean displacement; all other parts are omitted. -/
theorem C3_amended :
    (∀ (sq : ℚ → ℚ) (f : Frame), calculate_velocities sq f none = []) ∧
    (∀ (sq : ℚ → ℚ) (f p : Frame) (part : String) (v : ℚ),
       (part, v) ∈ calculate_velocities sq f (some p) ↔
         part ∈ important_parts ∧ ∃ c q, List.lookup part f = some c ∧
           List.lookup part p = some q ∧ v = euclid sq c q) :=
  ⟨fun _ _ => rfl, fun sq f p part v => calculate_velocities_mem sq f p part v⟩

/-- C3 witness. -/
theorem C3_witness :
    ("nose" ∈ important_parts) ∧
    ("nose", euclid ratSqrt ⟨3, 4⟩ ⟨0, 0⟩) ∈
      calculate_velocities ratSqrt [("nose", ⟨3, 4⟩)] (some [("nose", ⟨0, 0⟩)]) :=
  ⟨by decide,
   (C3_amended.2 ratSqrt [("nose", ⟨3, 4⟩)] [("nose", ⟨0, 0⟩)] "nose"
       (euclid ratSqrt ⟨3, 4⟩ ⟨0, 0⟩)).mpr
     ⟨by decide, ⟨3, 4⟩, ⟨0, 0⟩, by decide, by decide, rfl⟩⟩

/-! ## Claim C6 -/

/-- C6: the fall analyzer flags `detected` exactly when the computed
confidence strictly exceeds the fall threshold; a horizontal-only frame
(confidence exactly 0.6) is not detected under the default threshold 0.6,
while a horizontal-and-head-below-hips frame (confidence 0.8) is. -/
theorem C6_fall_strict_threshold :
    (∀ kp : Frame, fall_parts_present kp = true →
       ((detect_fall kp).detected = true ↔
         fall_threshold < (detect_fall kp).confidence)) ∧
    (∀ kp : Frame, (detect_fall kp).confidence = 0.6 →
       (detect_fall kp).detected = false) ∧
    (∀ kp : Frame, (detect_fall kp).confidence = 0.8 →
       (detect_fall kp).detected = true) ∧
    (detect_fall horizontal_frame).confidence = 0.6 ∧
    (detect_fall horizontal_frame).detected = false ∧
    (detect_fall fall_frame).confidence = 0.8 ∧
    (detect_fall fall_frame).detected = true := by
  refine ⟨?_, ?_, ?_, by rw [detect_fall_horizontal_frame],
    by rw [detect_fall_horizontal_frame], by rw [detect_fall_fall_frame],
    by rw [detect_fall_fall_frame]⟩
  · intro kp _
    rw [detect_fall_detected_eq]
    simp
  · intro kp h
    rw [detect_fall_detected_eq, h]
    norm_num [fall_threshold]
  · intro kp h
    rw [detect_fall_detected_eq, h]
    norm_num [fall_threshold]

theorem C6_witness :
    fall_parts_present horizontal_frame = true ∧
    ((detect_fall horizontal_frame).detected = true ↔
       fall_threshold < (detect_fall horizontal_frame).confidence) :=
  ⟨by decide, C6_fall_strict_threshold.1 horizontal_frame (by decide)⟩

/-! ## Claim C10 -/

/-- C10: when the current frame and the previous frame share no comparable
part, `_detect_immobility` returns the not-detected result, consumes no time
sample, and leaves the detector state (in particular the immobility timer)
exactly unchanged. -/
theorem C10_immobility_no_shared_parts (sq : ℚ → ℚ) (clock : ℕ → ℚ) (i : ℕ)
    (s : DetectorState) (kp p : Frame)
    (hprev : s.prev_keypoints = some p)
    (hnone : movements sq kp p = []) :
    detect_immobility sq clock i s kp = (immobility_no_detect, s, i) := by
  unfold detect_immobility
  rw [hprev]
  simp [hnone]

theorem C10_witness :
    (⟨some [("left_ear", ⟨0, 0⟩)], some 3, true, 0⟩ : DetectorState).prev_keypoints
        = some [("left_ear", ⟨0, 0⟩)] ∧
    movements ratSqrt [("nose", ⟨0, 0⟩)] [("left_ear", ⟨0, 0⟩)] = [] ∧
    detect_immobility ratSqrt (fun _ => 20) 1
        ⟨some [("left_ear", ⟨0, 0⟩)], some 3, true, 0⟩ [("nose", ⟨0, 0⟩)] =
      (immobility_no_detect, ⟨some [("left_ear", ⟨0, 0⟩)], some 3, true, 0⟩, 1) :=
  ⟨rfl, by decide,
    C10_immobility_no_shared_parts ratSqrt (fun _ => 20) 1 _ _ _ rfl (by decide)⟩

/-! ## Claim C4 -/

/-- Reduction of `analyze_movementE` on the main path, given that the two
fallible sub-computations succeed: the call returns the arbitrated decision
and a state whose previous frame is the current one and whose timer fields
come from the immobility analyzer. -/
lemma analyze_movementE_ok (sq : ℚ → ℚ) (clock : ℕ → ℚ) (s : StateE)
    (f : Frame) (vm : VelMap) (r : DetectionResult) (s2 : StateE) (j : ℕ)
    (hg : ¬ (clock 0 - s.last_alert_time < alert_cooldown))
    (hv : calculate_velocitiesE sq (.frame f) s.prev_keypoints = .ok vm)
    (hi : detect_immobilityE sq clock 1 s (.frame f) = .ok (r, s2, j)) :
    ∃ s1, analyze_movementE sq clock s (.dict (some (.frame f))) =
      .ok (determine_alert
        [("fall", detect_fallE (.frame f)),
         ("rapid_movements", detect_rapid_movements vm),
         ("immobility", r),
         ("seizure_patterns", detect_seizure_patterns vm)], s1) ∧
      s1.prev_keypoints = some (.frame f) ∧
      s1.immobility_detected = s2.immobility_detected ∧
      s1.immobility_start_time = s2.immobility_start_time := by
  simp only [analyze_movementE, if_neg hg, hv, hi, bind, Except.bind]
  refine ⟨_, rfl, ?_, ?_, ?_⟩ <;> (split <;> rfl)

/-- C4 counterexample: with a stored previous frame a malformed
`'keypoints'` value makes the membership test inside
`_calculate_velocities` raise a `TypeError` that escapes
`analyze_movement`; moreover the same malformed value fed to a detector
with no previous frame returns normally and is stored as the previous
frame (line 89), after which even a well-formed frame raises — so the core
neither returns a decision on every input nor confines the damage to the
malformed call. -/
theorem C4_counterexample :
    analyze_movementE ratSqrt (fun _ => 100)
        ⟨some (.frame [("nose", ⟨0, 0⟩)]), none, false, 0⟩
        (.dict (some .bad)) = .error .typeError ∧
    analyze_movementE ratSqrt (fun _ => 100) ⟨none, none, false, 0⟩
        (.dict (some .bad)) =
      .ok (no_alert_result, ⟨some .bad, none, false, 0⟩) ∧
    analyze_movementE ratSqrt (fun _ => 100) ⟨some .bad, none, false, 0⟩
        (.dict (some (.frame fall_frame))) = .error .typeError := by
  refine ⟨?_, ?_, ?_⟩
  · have hg : ¬ (((fun _ : ℕ => (100:ℚ)) 0) -
        (⟨some (.frame [("nose", ⟨0, 0⟩)]), none, false, 0⟩ :
          StateE).last_alert_time < alert_cooldown) := by
      norm_num [alert_cooldown]
    have hv : calculate_velocitiesE ratSqrt .bad
        (some (.frame [("nose", ⟨0, 0⟩)])) = .error .typeError := rfl
    simp only [analyze_movementE, if_neg hg, hv, bind, Except.bind]
  · have hg : ¬ (((fun _ : ℕ => (100:ℚ)) 0) -
        (⟨none, none, false, 0⟩ : StateE).last_alert_time < alert_cooldown) := by
      norm_num [alert_cooldown]
    have hv : calculate_velocitiesE ratSqrt .bad
        ((⟨none, none, false, 0⟩ : StateE).prev_keypoints) = .ok [] := rfl
    have hi : detect_immobilityE ratSqrt (fun _ => 100) 1
        ⟨none, none, false, 0⟩ .bad =
      .ok ({ detected := false, confidence := 0, reason := "No previous frame" },
        ⟨none, none, false, 0⟩, 1) := rfl
    simp only [analyze_movementE, if_neg hg, hv, hi, bind, Except.bind]
    rfl
  · have hg : ¬ (((fun _ : ℕ => (100:ℚ)) 0) -
        (⟨some .bad, none, false, 0⟩ : StateE).last_alert_time
          < alert_cooldown) := by
      norm_num [alert_cooldown]
    have hv : calculate_velocitiesE ratSqrt (.frame fall_frame)
        (some .bad) = .error .typeError := rfl
    simp only [analyze_movementE, if_neg hg, hv, bind, Except.bind]

/-- C4 amended: the freshly-constructed detector state satisfies the
well-formedness invariant (stored previous frame is an actual frame, an
active timer has a start time), and every call whose keypoints data is
well-formed (absent, a dict without the key, or an actual keypoint frame)
from an invariant state terminates without raising, returns an
AlertDecision with confidence in `[0,1]` (confidence 0 when there is no
alert), and leaves the detector in an invariant state again — so no call in
a run fed only well-formed keypoints data ever raises.  Malformed
`'keypoints'` values are excluded: they can raise immediately or poison the
stored previous frame so that a later well-formed call raises (see the
counterexample). -/
theorem C4_amended :
    StateE.wf ⟨none, none, false, 0⟩ ∧
    ∀ (sq : ℚ → ℚ), (∀ q, 0 ≤ sq q) → ∀ (clock : ℕ → ℚ) (s : StateE)
      (inp : InputE), s.wf → inp.wf →
      ∃ d s1, analyze_movementE sq clock s inp = .ok (d, s1) ∧
        0 ≤ d.confidence ∧ d.confidence ≤ 1 ∧
        (d.alert = false → d.confidence = 0) ∧ s1.wf := by
  constructor
  · unfold StateE.wf
    exact ⟨fun kv h => (nomatch h), fun h => nomatch h⟩
  intro sq hsq clock s inp hs hi
  have hno : 0 ≤ no_alert_result.confidence ∧ no_alert_result.confidence ≤ 1 ∧
      (no_alert_result.alert = false → no_alert_result.confidence = 0) := by
    norm_num [no_alert_result]
  cases inp with
  | badData => exact absurd hi (by simp [InputE.wf])
  | noneData => exact ⟨no_alert_result, s, rfl, hno.1, hno.2.1, hno.2.2, hs⟩
  | dict okv =>
    cases okv with
    | none => exact ⟨no_alert_result, s, rfl, hno.1, hno.2.1, hno.2.2, hs⟩
    | some kv =>
      obtain ⟨f, rfl⟩ : ∃ f, kv = .frame f := by
        cases kv with
        | frame f => exact ⟨f, rfl⟩
        | bad => exact absurd hi (by simp [InputE.wf, KVal.good])
      by_cases hg : clock 0 - s.last_alert_time < alert_cooldown
      · exact ⟨no_alert_result, s, by simp [analyze_movementE, hg],
          hno.1, hno.2.1, hno.2.2, hs⟩
      · -- the velocity computation succeeds with nonnegative values
        obtain ⟨vm, hv, hvm⟩ : ∃ vm,
            calculate_velocitiesE sq (.frame f) s.prev_keypoints = .ok vm ∧
              ∀ pr ∈ vm, 0 ≤ Prod.snd pr := by
          cases hp : s.prev_keypoints with
          | none => exact ⟨[], rfl, by simp⟩
          | some pv =>
            obtain ⟨p, rfl⟩ : ∃ p, pv = .frame p := by
              have := hs.1 pv hp
              cases pv with
              | frame p => exact ⟨p, rfl⟩
              | bad => simp [KVal.good] at this
            refine ⟨calculate_velocities sq f (some p), rfl, ?_⟩
            intro pr hpr
            exact calculate_velocities_nonneg sq hsq f (some p) pr.1 pr.2 hpr
        -- the immobility analyzer succeeds with a bounded result and
        -- preserves the timer invariant
        obtain ⟨r, s2, j, himm, hrb, hts⟩ : ∃ r s2 j,
            detect_immobilityE sq clock 1 s (.frame f) = .ok (r, s2, j) ∧
              (0 ≤ r.confidence ∧ r.confidence ≤ 1 ∧
                (r.detected = false → r.confidence = 0)) ∧
              (s2.immobility_detected = true →
                s2.immobility_start_time.isSome = true) := by
          cases hp : s.prev_keypoints with
          | none =>
            refine ⟨{ detected := false, confidence := 0
                      reason := "No previous frame" }, s, 1, ?_, by norm_num,
              hs.2⟩
            simp [detect_immobilityE, hp]
          | some pv =>
            obtain ⟨p, rfl⟩ : ∃ p, pv = .frame p := by
              have := hs.1 pv hp
              cases pv with
              | frame p => exact ⟨p, rfl⟩
              | bad => simp [KVal.good] at this
            have hraise : immobility_raises sq s f p = false := by
              unfold immobility_raises
              cases hdet : s.immobility_detected with
              | false => simp
              | true =>
                have := hs.2 hdet
                rcases hst : s.immobility_start_time with _ | st
                · rw [hst] at this
                  simp at this
                · simp [hst]
            have hpres := detect_immobility_invariant sq clock 1
              ⟨some p, s.immobility_start_time, s.immobility_detected,
                s.last_alert_time⟩ f hs.2
            have hcases := detect_immobility_result_cases sq clock 1
              ⟨some p, s.immobility_start_time, s.immobility_detected,
                s.last_alert_time⟩ f
            rcases hr : detect_immobility sq clock 1
                ⟨some p, s.immobility_start_time, s.immobility_detected,
                  s.last_alert_time⟩ f with ⟨r0, st0, j0⟩
            rw [hr] at hpres hcases
            refine ⟨r0, { s with immobility_detected := st0.immobility_detected
                                 immobility_start_time :=
                                   st0.immobility_start_time }, j0, ?_, ?_, ?_⟩
            · simp only [detect_immobilityE, hp, hraise, Bool.false_eq_true,
                if_false, hr]
            · rcases hcases with ⟨hd, hc⟩ | ⟨hd, hc⟩
              · rw [hc]
                refine ⟨by norm_num, by norm_num, ?_⟩
                rw [hd]
                intro hfalse
                cases hfalse
              · rw [hc]
                exact ⟨le_refl 0, by norm_num, fun _ => rfl⟩
            · exact hpres
        obtain ⟨s1, heq, hs1prev, hs1det, hs1start⟩ :=
          analyze_movementE_ok sq clock s f vm r s2 j hg hv himm
        have hres : ∀ pr ∈ [("fall", detect_fallE (.frame f)),
            ("rapid_movements", detect_rapid_movements vm),
            ("immobility", r),
            ("seizure_patterns", detect_seizure_patterns vm)],
            0 ≤ (Prod.snd pr).confidence ∧ (Prod.snd pr).confidence ≤ 1 := by
          intro pr hpr
          simp only [List.mem_cons, List.not_mem_nil, or_false] at hpr
          rcases hpr with rfl | rfl | rfl | rfl
          · have hb := detect_fall_bounds f
            exact ⟨hb.1, hb.2.1⟩
          · have hb := detect_rapid_movements_bounds vm
            exact ⟨hb.1, hb.2.1⟩
          · exact ⟨hrb.1, hrb.2.1⟩
          · have hb := detect_seizure_patterns_bounds vm hvm
            exact ⟨hb.1, hb.2.1⟩
        have hdb := determine_alert_bounds _ hres
        refine ⟨_, s1, heq, hdb.1, hdb.2.1, hdb.2.2, ?_⟩
        show (∀ kv, s1.prev_keypoints = some kv → kv.good = true) ∧
          (s1.immobility_detected = true →
            s1.immobility_start_time.isSome = true)
        constructor
        · intro kv h
          rw [hs1prev] at h
          injection h with h2
          rw [← h2]
          rfl
        · intro hdet
          rw [hs1det] at hdet
          rw [hs1start]
          exact hts hdet

/-- C4 witness. -/
theorem C4_witness :
    StateE.wf ⟨none, none, false, 0⟩ ∧
    InputE.wf (.dict (some (.frame fall_frame))) ∧
    (∃ d s1, analyze_movementE ratSqrt (fun _ => 100) ⟨none, none, false, 0⟩
        (.dict (some (.frame fall_frame))) = .ok (d, s1) ∧
      0 ≤ d.confidence ∧ d.confidence ≤ 1 ∧
      (d.alert = false → d.confidence = 0) ∧ s1.wf) := by
  have hwf : StateE.wf ⟨none, none, false, 0⟩ := C4_amended.1
  have hinp : InputE.wf (.dict (some (.frame fall_frame))) := rfl
  exact ⟨hwf, hinp,
    C4_amended.2 ratSqrt ratSqrt_nonneg (fun _ => 100) ⟨none, none, false, 0⟩
      (.dict (some (.frame fall_frame))) hwf hinp⟩

/-! ## Claim C5 -/

/-- The state returned by `run_analyses` differs from the input state only
in the immobility timer fields. -/
lemma run_analyses_state (sq : ℚ → ℚ) (clock : ℕ → ℚ) (s : DetectorState)
    (kp : Frame) :
    (run_analyses sq clock s kp).2.prev_keypoints = s.prev_keypoints ∧
    (run_analyses sq clock s kp).2.last_alert_time = s.last_alert_time := by
  unfold run_analyses
  exact detect_immobility_frame sq clock 1 s kp

/-- Each call either reports no alert and keeps `last_alert_time`, or
reports an alert, stamps `last_alert_time` with its first time sample, and
that sample was at least one cooldown after the previous stamp. -/
lemma analyze_movement_last (sq : ℚ → ℚ) (clock : ℕ → ℚ) (s : DetectorState)
    (inp : Option (Option Frame)) :
    ((analyze_movement sq clock s inp).1.alert = false ∧
       (analyze_movement sq clock s inp).2.last_alert_time = s.last_alert_time) ∨
    ((analyze_movement sq clock s inp).1.alert = true ∧
       (analyze_movement sq clock s inp).2.last_alert_time = clock 0 ∧
       alert_cooldown ≤ clock 0 - s.last_alert_time) := by
  rcases inp with _ | inp1
  · left
    simp [analyze_movement, no_alert_result]
  rcases inp1 with _ | kp
  · left
    simp [analyze_movement, no_alert_result]
  by_cases hg : clock 0 - s.last_alert_time < alert_cooldown
  · left
    simp [analyze_movement, hg, no_alert_result]
  · by_cases ha : (determine_alert (run_analyses sq clock s kp).1).alert = true
    · right
      refine ⟨?_, ?_, le_of_not_lt hg⟩
      · simp only [analyze_movement, if_neg hg]
        exact ha
      · simp only [analyze_movement, if_neg hg, if_pos ha]
    · left
      have ha' : (determine_alert (run_analyses sq clock s kp).1).alert = false := by
        revert ha
        cases (determine_alert (run_analyses sq clock s kp).1).alert <;> simp
      constructor
      · simp only [analyze_movement, if_neg hg]
        exact ha'
      · simp only [analyze_movement, if_neg hg, if_neg ha]
        exact (run_analyses_state sq clock s kp).2

/-- After an alert stamped `T`, every later call whose first time sample is
before `T + cooldown` reports no alert, by induction along the run. -/
lemma run_no_alert_in_window (sq : ℚ → ℚ) (T : ℚ) :
    ∀ (calls : List ((ℕ → ℚ) × Option (Option Frame))) (s : DetectorState),
      (s.last_alert_time = T ∨ T + alert_cooldown ≤ s.last_alert_time) →
      ∀ c d, (c, d) ∈ calls.zip (run_detector sq s calls).1 →
        T < c.1 0 → c.1 0 < T + alert_cooldown → d.alert = false := by
  intro calls
  induction calls with
  | nil =>
    intro s _ c d h
    simp [run_detector] at h
  | cons c0 rest ih =>
    intro s hs c d hmem hlo hhi
    simp only [run_detector, List.zip_cons_cons, List.mem_cons] at hmem
    rcases hmem with heq | hmem'
    · obtain ⟨rfl, rfl⟩ : c = c0 ∧ d = (analyze_movement sq c0.1 s c0.2).1 := by
        simpa [Prod.ext_iff] using heq
      rcases analyze_movement_last sq c.1 s c.2 with ⟨hf, -⟩ | ⟨-, -, hge⟩
      · exact hf
      · exfalso
        rcases hs with hT | hT
        · rw [hT] at hge
          linarith
        · linarith
    · refine ih (analyze_movement sq c0.1 s c0.2).2 ?_ c d hmem' hlo hhi
      rcases analyze_movement_last sq c0.1 s c0.2 with ⟨-, hl⟩ | ⟨-, hl, hge⟩
      · rw [hl]
        exact hs
      · right
        rw [hl]
        rcases hs with hT | hT
        · rw [hT] at hge
          linarith
        · linarith

/-- C5: an alerting call stamps `last_alert_time` with its time sample `T`
after a gate check `now - last < cooldown`; afterwards no call with a time
sample strictly inside `(T, T + cooldown)` can alert; and a call at exactly
`T + cooldown` passes the gate and may alert (witnessed by a fall frame). -/
theorem C5_cooldown :
    (∀ (sq : ℚ → ℚ) (clock : ℕ → ℚ) (s : DetectorState) inp,
       (analyze_movement sq clock s inp).1.alert = true →
         (analyze_movement sq clock s inp).2.last_alert_time = clock 0 ∧
         alert_cooldown ≤ clock 0 - s.last_alert_time) ∧
    (∀ (sq : ℚ → ℚ) (T : ℚ) (s : DetectorState)
       (calls : List ((ℕ → ℚ) × Option (Option Frame))),
       s.last_alert_time = T →
       ∀ c d, (c, d) ∈ calls.zip (run_detector sq s calls).1 →
         T < c.1 0 → c.1 0 < T + alert_cooldown → d.alert = false) ∧
    (∀ (sq : ℚ → ℚ) (T : ℚ),
       (analyze_movement sq (fun _ => T + alert_cooldown)
           ⟨none, none, false, T⟩ (some (some fall_frame))).1.alert = true) := by
  refine ⟨?_, ?_, ?_⟩
  · intro sq clock s inp ha
    rcases analyze_movement_last sq clock s inp with ⟨hf, -⟩ | ⟨-, hl, hge⟩
    · rw [ha] at hf
      cases hf
    · exact ⟨hl, hge⟩
  · intro sq T s calls hT c d hmem hlo hhi
    exact run_no_alert_in_window sq T calls s (Or.inl hT) c d hmem hlo hhi
  · intro sq T
    have hg : ¬ ((fun _ : ℕ => T + alert_cooldown) 0 -
        (⟨none, none, false, T⟩ : DetectorState).last_alert_time
          < alert_cooldown) := by
      simp
    simp only [analyze_movement, if_neg hg]
    simp [run_analyses, detect_fall_fall_frame, calculate_velocities,
      detect_rapid_movements, detect_immobility, detect_seizure_patterns,
      analyze_seizure_pattern, seizure_patterns, determine_alert, pick_best]

/-- C5 witness. -/
theorem C5_witness :
    init_state.last_alert_time = 0 ∧
    (∀ c d, (c, d) ∈ ([((fun _ => (2:ℚ)), some (some fall_frame))]).zip
        (run_detector ratSqrt init_state
          [((fun _ => (2:ℚ)), some (some fall_frame))]).1 →
      (0:ℚ) < c.1 0 → c.1 0 < 0 + alert_cooldown → d.alert = false) ∧
    (analyze_movement ratSqrt (fun _ => (0:ℚ) + alert_cooldown)
        ⟨none, none, false, 0⟩ (some (some fall_frame))).1.alert = true :=
  ⟨rfl, C5_cooldown.2.1 ratSqrt 0 init_state _ rfl, C5_cooldown.2.2 ratSqrt 0⟩

/-! ## Claim C7 -/

/-- C7: with a previous frame and at least one comparable part, an average
displacement at or above the movement threshold clears the timer and marks
it inactive regardless of prior state, with no detection; below the
threshold the timer is (re)started if inactive, and the result is
`detected = true` with confidence 0.8 exactly when the elapsed time from
the timer start to the duration-check sample strictly exceeds the duration
threshold, the confidence being 0 otherwise. -/
theorem C7_immobility (sq : ℚ → ℚ) (clock : ℕ → ℚ) (i : ℕ)
    (s : DetectorState) (kp p : Frame)
    (hprev : s.prev_keypoints = some p)
    (hinv : s.immobility_detected = true → s.immobility_start_time.isSome = true)
    (hne : movements sq kp p ≠ []) :
    (immobility_threshold ≤
        (movements sq kp p).sum / ((movements sq kp p).length : ℚ) →
      (detect_immobility sq clock i s kp).1 = immobility_no_detect ∧
      (detect_immobility sq clock i s kp).2.1 =
        { s with immobility_detected := false, immobility_start_time := none }) ∧
    ((movements sq kp p).sum / ((movements sq kp p).length : ℚ) <
        immobility_threshold →
      (detect_immobility sq clock i s kp).2.1.immobility_detected = true ∧
      ∀ st, (if s.immobility_detected = true then s.immobility_start_time
             else some (clock i)) = some st →
        (detect_immobility sq clock i s kp).2.1.immobility_start_time = some st ∧
        ((detect_immobility sq clock i s kp).1.detected = true ↔
          immobility_duration_threshold <
            clock (if s.immobility_detected = true then i else i + 1) - st) ∧
        ((detect_immobility sq clock i s kp).1.detected = true →
          (detect_immobility sq clock i s kp).1.confidence = 0.8) ∧
        ((detect_immobility sq clock i s kp).1.detected = false →
          (detect_immobility sq clock i s kp).1.confidence = 0)) := by
  have hlen : (movements sq kp p).length > 0 := List.length_pos.mpr hne
  constructor
  · intro hge
    unfold detect_immobility
    simp only [hprev]
    rw [if_pos hlen, if_neg (not_lt.mpr hge)]
    exact ⟨rfl, rfl⟩
  · intro hlt
    by_cases hd : s.immobility_detected = true
    · have hsome := hinv hd
      rcases hst : s.immobility_start_time with _ | st0
      · rw [hst] at hsome
        simp at hsome
      · have hred : detect_immobility sq clock i s kp =
            if clock i - st0 > immobility_duration_threshold then
              ({ detected := true, confidence := 0.8
                 reason := "Freezing episode detected"
                 duration := some (clock (i + 2) - st0) }, s, i + 3)
            else (immobility_no_detect, s, i + 1) := by
          unfold detect_immobility
          simp only [hprev, hd, hst]
          rw [if_pos hlen, if_pos hlt]
        rw [hred]
        by_cases hdur : clock i - st0 > immobility_duration_threshold
        · rw [if_pos hdur]
          refine ⟨hd, ?_⟩
          intro st hstif
          rw [if_pos hd] at hstif
          injection hstif with hst0
          subst hst0
          rw [if_pos hd]
          refine ⟨hst, ?_, fun _ => rfl, fun hfalse => absurd hfalse (by simp)⟩
          exact ⟨fun _ => hdur, fun _ => rfl⟩
        · rw [if_neg hdur]
          refine ⟨hd, ?_⟩
          intro st hstif
          rw [if_pos hd] at hstif
          injection hstif with hst0
          subst hst0
          rw [if_pos hd]
          refine ⟨hst, ?_, fun htrue => absurd htrue (by simp [immobility_no_detect]), fun _ => rfl⟩
          constructor
          · intro htrue
            simp [immobility_no_detect] at htrue
          · intro hcontra
            exact absurd hcontra hdur
    · have hd' : s.immobility_detected = false := by
        revert hd
        cases s.immobility_detected <;> simp
      have hred : detect_immobility sq clock i s kp =
          if clock (i + 1) - clock i > immobility_duration_threshold then
            ({ detected := true, confidence := 0.8
               reason := "Freezing episode detected"
               duration := some (clock (i + 3) - clock i) },
             { s with immobility_detected := true
                      immobility_start_time := some (clock i) }, i + 4)
          else (immobility_no_detect,
            { s with immobility_detected := true
                     immobility_start_time := some (clock i) }, i + 2) := by
        unfold detect_immobility
        simp only [hprev, hd']
        rw [if_pos hlen, if_pos hlt]
      rw [hred]
      by_cases hdur : clock (i + 1) - clock i > immobility_duration_threshold
      · rw [if_pos hdur]
        refine ⟨rfl, ?_⟩
        intro st hstif
        rw [if_neg hd] at hstif
        injection hstif with hst0
        subst hst0
        rw [if_neg hd]
        refine ⟨rfl, ?_, fun _ => rfl, fun hfalse => absurd hfalse (by simp)⟩
        exact ⟨fun _ => hdur, fun _ => rfl⟩
      · rw [if_neg hdur]
        refine ⟨rfl, ?_⟩
        intro st hstif
        rw [if_neg hd] at hstif
        injection hstif with hst0
        subst hst0
        rw [if_neg hd]
        refine ⟨rfl, ?_, fun htrue => absurd htrue (by simp [immobility_no_detect]), fun _ => rfl⟩
        constructor
        · intro htrue
          simp [immobility_no_detect] at htrue
        · intro hcontra
          exact absurd hcontra hdur

/-- C7 witness. -/
theorem C7_witness :
    movements ratSqrt [("nose", ⟨0, 1⟩)] [("nose", ⟨0, 0⟩)] ≠ [] ∧
    (detect_immobility ratSqrt (fun _ => 20) 1
        ⟨some [("nose", ⟨0, 0⟩)], some 0, true, 0⟩
        [("nose", ⟨0, 1⟩)]).1.detected = true := by
  have h0 : movements ratSqrt [("nose", ⟨0, 1⟩)] [("nose", ⟨0, 0⟩)]
      = [euclid ratSqrt ⟨0, 1⟩ ⟨0, 0⟩] := rfl
  have hmov : movements ratSqrt [("nose", ⟨0, 1⟩)] [("nose", ⟨0, 0⟩)] = [(1:ℚ)] := by
    rw [h0]
    norm_num [euclid, ratSqrt_one]
  have hne : movements ratSqrt [("nose", ⟨0, 1⟩)] [("nose", ⟨0, 0⟩)] ≠ [] := by
    rw [hmov]
    simp
  have h := C7_immobility ratSqrt (fun _ => 20) 1
      ⟨some [("nose", ⟨0, 0⟩)], some 0, true, 0⟩ [("nose", ⟨0, 1⟩)]
      [("nose", ⟨0, 0⟩)] rfl (fun _ => rfl) hne
  have hlt : (movements ratSqrt [("nose", ⟨0, 1⟩)] [("nose", ⟨0, 0⟩)]).sum /
      ((movements ratSqrt [("nose", ⟨0, 1⟩)] [("nose", ⟨0, 0⟩)]).length : ℚ)
        < immobility_threshold := by
    rw [hmov]
    norm_num [immobility_threshold]
  have h2 := (h.2 hlt).2 0 rfl
  exact ⟨hne, h2.2.1.mpr (by norm_num [immobility_duration_threshold])⟩

/-! ## Claim C8 -/

lemma determine_alert_alert_true (results : List (String × DetectionResult))
    (pr : String × DetectionResult) (hmem : pr ∈ results)
    (hdet : pr.2.detected = true) : (determine_alert results).alert = true := by
  unfold determine_alert
  rcases hf : results.filter (fun tr => tr.2.detected) with _ | ⟨h0, t⟩ <;>
    simp only [hf]
  exfalso
  have hx : pr ∈ results.filter (fun tr => tr.2.detected) :=
    List.mem_filter.mpr ⟨hmem, by simp [hdet]⟩
  rw [hf] at hx
  cases hx

/-- Reduction of `analyze_movement` when the cooldown gate does not fire. -/
lemma analyze_movement_pass (sq : ℚ → ℚ) (clock : ℕ → ℚ) (s : DetectorState)
    (kp : Frame) (hg : ¬ (clock 0 - s.last_alert_time < alert_cooldown)) :
    (analyze_movement sq clock s (some (some kp))).1 =
      determine_alert (run_analyses sq clock s kp).1 := by
  simp only [analyze_movement, if_neg hg]

lemma determine_alert_alert_false (results : List (String × DetectionResult))
    (h : ∀ pr ∈ results, pr.2.detected = false) :
    (determine_alert results).alert = false := by
  unfold determine_alert
  rcases hf : results.filter (fun tr => tr.2.detected) with _ | ⟨h0, t⟩ <;>
    simp only [hf]
  · rfl
  · exfalso
    have hmem : h0 ∈ results.filter (fun tr => tr.2.detected) := by
      rw [hf]
      exact List.mem_cons_self h0 t
    have hdet := (List.mem_filter.mp hmem).2
    have hfalse := h h0 (List.mem_of_mem_filter hmem)
    rw [hfalse] at hdet
    cases hdet

/-- `_detect_immobility` only reads the time samples at offsets 0..3 from
its starting index. -/
lemma detect_immobility_clock_congr (sq : ℚ → ℚ) (clock clock' : ℕ → ℚ)
    (i : ℕ) (s : DetectorState) (kp : Frame)
    (h0 : clock i = clock' i) (h1 : clock (i + 1) = clock' (i + 1))
    (h2 : clock (i + 2) = clock' (i + 2)) (h3 : clock (i + 3) = clock' (i + 3)) :
    detect_immobility sq clock i s kp = detect_immobility sq clock' i s kp := by
  unfold detect_immobility
  simp only [h0, h1, h2, h3]

/-- C8 counterexample: two calls with equal frame, state and first time
sample (both 20) but different later samples produce different decisions —
`_detect_immobility` re-reads the clock (source lines 209-218), so the
single line-64 sample does not determine the result. -/
theorem C8_counterexample :
    (fun _ : ℕ => (20:ℚ)) 0 = (fun n : ℕ => if n = 0 then (20:ℚ) else 5) 0 ∧
    (analyze_movement ratSqrt (fun _ => 20)
        ⟨some [("nose", ⟨0, 0⟩)], some 0, true, 0⟩
        (some (some [("nose", ⟨0, 1⟩)]))).1.alert = true ∧
    (analyze_movement ratSqrt (fun n => if n = 0 then 20 else 5)
        ⟨some [("nose", ⟨0, 0⟩)], some 0, true, 0⟩
        (some (some [("nose", ⟨0, 1⟩)]))).1.alert = false := by
  have h0 : movements ratSqrt [("nose", ⟨0, 1⟩)] [("nose", ⟨0, 0⟩)]
      = [euclid ratSqrt ⟨0, 1⟩ ⟨0, 0⟩] := rfl
  have hmov : movements ratSqrt [("nose", ⟨0, 1⟩)] [("nose", ⟨0, 0⟩)]
      = [(1:ℚ)] := by
    rw [h0]
    norm_num [euclid, ratSqrt_one]
  have hv0 : calculate_velocities ratSqrt [("nose", ⟨0, 1⟩)]
      (some [("nose", ⟨0, 0⟩)]) = [("nose", euclid ratSqrt ⟨0, 1⟩ ⟨0, 0⟩)] := rfl
  have hvel : calculate_velocities ratSqrt [("nose", ⟨0, 1⟩)]
      (some [("nose", ⟨0, 0⟩)]) = [("nose", (1:ℚ))] := by
    rw [hv0]
    norm_num [euclid, ratSqrt_one]
  have hfall : (detect_fall [("nose", ⟨0, 1⟩)]).detected = false := rfl
  have hrap : (detect_rapid_movements [("nose", (1:ℚ))]).detected = false := by
    unfold detect_rapid_movements
    norm_num [rapid_movement_threshold]
  have hseiz : (detect_seizure_patterns [("nose", (1:ℚ))]).detected = false := by
    unfold detect_seizure_patterns analyze_seizure_pattern
      calculate_pattern_consistency
    norm_num [seizure_patterns, tonic_clonic, myoclonic, atonic, min_def]
  have himmA : (detect_immobility ratSqrt (fun _ => 20) 1
      ⟨some [("nose", ⟨0, 0⟩)], some 0, true, 0⟩
      [("nose", ⟨0, 1⟩)]).1.detected = true := by
    unfold detect_immobility
    norm_num [hmov, immobility_threshold, immobility_duration_threshold]
  have himmB : (detect_immobility ratSqrt (fun n => if n = 0 then 20 else 5) 1
      ⟨some [("nose", ⟨0, 0⟩)], some 0, true, 0⟩
      [("nose", ⟨0, 1⟩)]).1.detected = false := by
    unfold detect_immobility
    norm_num [hmov, immobility_threshold, immobility_duration_threshold,
      immobility_no_detect]
  have hgA : ¬ ((fun _ : ℕ => (20:ℚ)) 0 -
      (⟨some [("nose", ⟨0, 0⟩)], some 0, true, 0⟩ : DetectorState).last_alert_time
        < alert_cooldown) := by
    norm_num [alert_cooldown]
  have hgB : ¬ ((fun n : ℕ => if n = 0 then (20:ℚ) else 5) 0 -
      (⟨some [("nose", ⟨0, 0⟩)], some 0, true, 0⟩ : DetectorState).last_alert_time
        < alert_cooldown) := by
    norm_num [alert_cooldown]
  refine ⟨by norm_num, ?_, ?_⟩
  · rw [analyze_movement_pass ratSqrt (fun _ => 20)
      ⟨some [("nose", ⟨0, 0⟩)], some 0, true, 0⟩ [("nose", ⟨0, 1⟩)] hgA]
    exact determine_alert_alert_true _
      ("immobility", (detect_immobility ratSqrt (fun _ => 20) 1
        ⟨some [("nose", ⟨0, 0⟩)], some 0, true, 0⟩ [("nose", ⟨0, 1⟩)]).1)
      (by simp [run_analyses]) himmA
  · rw [analyze_movement_pass ratSqrt (fun n => if n = 0 then 20 else 5)
      ⟨some [("nose", ⟨0, 0⟩)], some 0, true, 0⟩ [("nose", ⟨0, 1⟩)] hgB]
    refine determine_alert_alert_false _ ?_
    intro pr hpr
    simp only [run_analyses, List.mem_cons, List.not_mem_nil, or_false] at hpr
    rcases hpr with rfl | rfl | rfl | rfl
    · exact hfall
    · simp only [hvel]
      exact hrap
    · exact himmB
    · simp only [hvel]
      exact hseiz

/-- C8 amended: each call reads the clock up to five times (sample 0 for the
cooldown gate, samples 1-4 inside the immobility analyzer); the decision and
state are a deterministic function of the frame, the prior state and those
samples: two runs whose clocks agree on samples 0..4 produce identical
results. -/
theorem C8_amended (sq : ℚ → ℚ) (clock clock' : ℕ → ℚ) (s : DetectorState)
    (inp : Option (Option Frame)) (h : ∀ n, n ≤ 4 → clock n = clock' n) :
    analyze_movement sq clock s inp = analyze_movement sq clock' s inp := by
  rcases inp with _ | inp1
  · rfl
  rcases inp1 with _ | kp
  · rfl
  have h0 := h 0 (by norm_num)
  have himm := detect_immobility_clock_congr sq clock clock' 1 s kp
    (h 1 (by norm_num)) (h 2 (by norm_num)) (h 3 (by norm_num))
    (h 4 (by norm_num))
  unfold analyze_movement run_analyses
  simp only [h0, himm]

/-- C8 witness. -/
theorem C8_witness :
    (∀ n, n ≤ 4 → (fun _ : ℕ => (0:ℚ)) n =
      (fun n : ℕ => if n ≤ 4 then (0:ℚ) else 1) n) ∧
    analyze_movement ratSqrt (fun _ => 0) init_state (some (some fall_frame)) =
      analyze_movement ratSqrt (fun n => if n ≤ 4 then 0 else 1) init_state
        (some (some fall_frame)) := by
  have hagree : ∀ n, n ≤ 4 → (fun _ : ℕ => (0:ℚ)) n =
      (fun n : ℕ => if n ≤ 4 then (0:ℚ) else 1) n := by
    intro n hn
    simp [hn]
  exact ⟨hagree, C8_amended ratSqrt (fun _ => 0)
    (fun n => if n ≤ 4 then 0 else 1) init_state (some (some fall_frame)) hagree⟩

/-! ## Claim C9 -/

lemma analyze_seizure_pattern_detected_iff (vel : VelMap) (cfg : PatternCfg) :
    (analyze_seizure_pattern vel cfg).detected = true ↔
      (0 < vel.length ∧
        cfg.pattern_threshold < calculate_pattern_consistency vel cfg) := by
  unfold analyze_seizure_pattern
  dsimp only
  split_ifs with h1 h2
  · simp [h1, h2]
  · simp [h1, h2]
  · simp [h1]

lemma detect_seizure_patterns_detected_iff (vel : VelMap) :
    (detect_seizure_patterns vel).detected = true ↔
      ∃ cfg ∈ seizure_patterns,
        (analyze_seizure_pattern vel cfg).detected = true := by
  unfold detect_seizure_patterns
  rcases hf : (seizure_patterns.map (analyze_seizure_pattern vel)).filter
      (fun r => r.detected) with _ | ⟨h0, t⟩ <;> simp only [hf]
  · constructor
    · intro h
      simp at h
    · rintro ⟨cfg, hc, hd⟩
      exfalso
      have hx : analyze_seizure_pattern vel cfg ∈
          (seizure_patterns.map (analyze_seizure_pattern vel)).filter
            (fun r => r.detected) :=
        List.mem_filter.mpr ⟨List.mem_map_of_mem _ hc, by simp [hd]⟩
      rw [hf] at hx
      cases hx
  · constructor
    · intro _
      have hx : h0 ∈ (seizure_patterns.map (analyze_seizure_pattern vel)).filter
          (fun r => r.detected) := by
        rw [hf]
        exact List.mem_cons_self h0 t
      have hdet := (List.mem_filter.mp hx).2
      obtain ⟨cfg, hc, heq⟩ := List.mem_map.mp (List.mem_of_mem_filter hx)
      exact ⟨cfg, hc, by rw [heq]; simpa using hdet⟩
    · intro _
      trivial

/-- C9: the seizure result is detected exactly when some pattern's
consistency strictly exceeds its threshold; the reported pattern is the one
of highest consistency among the matching patterns, and on ties the one
declared first in the table (tonic_clonic, then myoclonic, then atonic)
wins. -/
theorem C9_pattern_tiebreak (vel : VelMap) :
    ((detect_seizure_patterns vel).detected = true ↔
       (0 < vel.length ∧
         (tonic_clonic.pattern_threshold <
            calculate_pattern_consistency vel tonic_clonic ∨
          myoclonic.pattern_threshold <
            calculate_pattern_consistency vel myoclonic ∨
          atonic.pattern_threshold <
            calculate_pattern_consistency vel atonic))) ∧
    (0 < vel.length →
      tonic_clonic.pattern_threshold <
        calculate_pattern_consistency vel tonic_clonic →
      (myoclonic.pattern_threshold <
         calculate_pattern_consistency vel myoclonic →
        calculate_pattern_consistency vel myoclonic ≤
          calculate_pattern_consistency vel tonic_clonic) →
      (atonic.pattern_threshold < calculate_pattern_consistency vel atonic →
        calculate_pattern_consistency vel atonic ≤
          calculate_pattern_consistency vel tonic_clonic) →
      (detect_seizure_patterns vel).pattern_type = tonic_clonic.description ∧
      (detect_seizure_patterns vel).confidence =
        calculate_pattern_consistency vel tonic_clonic) ∧
    (0 < vel.length →
      myoclonic.pattern_threshold <
        calculate_pattern_consistency vel myoclonic →
      (tonic_clonic.pattern_threshold <
         calculate_pattern_consistency vel tonic_clonic →
        calculate_pattern_consistency vel tonic_clonic <
          calculate_pattern_consistency vel myoclonic) →
      (atonic.pattern_threshold < calculate_pattern_consistency vel atonic →
        calculate_pattern_consistency vel atonic ≤
          calculate_pattern_consistency vel myoclonic) →
      (detect_seizure_patterns vel).pattern_type = myoclonic.description ∧
      (detect_seizure_patterns vel).confidence =
        calculate_pattern_consistency vel myoclonic) ∧
    (0 < vel.length →
      atonic.pattern_threshold < calculate_pattern_consistency vel atonic →
      (tonic_clonic.pattern_threshold <
         calculate_pattern_consistency vel tonic_clonic →
        calculate_pattern_consistency vel tonic_clonic <
          calculate_pattern_consistency vel atonic) →
      (myoclonic.pattern_threshold <
         calculate_pattern_consistency vel myoclonic →
        calculate_pattern_consistency vel myoclonic <
          calculate_pattern_consistency vel atonic) →
      (detect_seizure_patterns vel).pattern_type = atonic.description ∧
      (detect_seizure_patterns vel).confidence =
        calculate_pattern_consistency vel atonic) := by
  have hdet1 : ∀ (cfg : PatternCfg), 0 < vel.length →
      cfg.pattern_threshold < calculate_pattern_consistency vel cfg →
      analyze_seizure_pattern vel cfg =
        { detected := true
          confidence := calculate_pattern_consistency vel cfg
          reason := "", pattern_type := cfg.description } := by
    intro cfg hl hm
    unfold analyze_seizure_pattern
    dsimp only
    rw [if_pos hl, if_pos hm]
  have hdet0 : ∀ (cfg : PatternCfg),
      ¬ (cfg.pattern_threshold < calculate_pattern_consistency vel cfg) →
      analyze_seizure_pattern vel cfg =
        { detected := false, confidence := 0
          reason := "", pattern_type := cfg.description } := by
    intro cfg hm
    unfold analyze_seizure_pattern
    by_cases h1 : vel.length > 0
    · rw [if_pos h1, if_neg hm]
    · rw [if_neg h1]
  refine ⟨?_, ?_, ?_, ?_⟩
  · rw [detect_seizure_patterns_detected_iff]
    constructor
    · rintro ⟨cfg, hc, hd⟩
      rw [analyze_seizure_pattern_detected_iff] at hd
      refine ⟨hd.1, ?_⟩
      simp only [seizure_patterns, List.mem_cons, List.not_mem_nil, or_false]
        at hc
      rcases hc with rfl | rfl | rfl
      · exact Or.inl hd.2
      · exact Or.inr (Or.inl hd.2)
      · exact Or.inr (Or.inr hd.2)
    · rintro ⟨hl, hm⟩
      rcases hm with hm | hm | hm
      · exact ⟨tonic_clonic, by simp [seizure_patterns],
          (analyze_seizure_pattern_detected_iff vel tonic_clonic).mpr ⟨hl, hm⟩⟩
      · exact ⟨myoclonic, by simp [seizure_patterns],
          (analyze_seizure_pattern_detected_iff vel myoclonic).mpr ⟨hl, hm⟩⟩
      · exact ⟨atonic, by simp [seizure_patterns],
          (analyze_seizure_pattern_detected_iff vel atonic).mpr ⟨hl, hm⟩⟩
  · intro hl m1 hmc hat
    have ha1 := hdet1 tonic_clonic hl m1
    by_cases m2 : myoclonic.pattern_threshold <
        calculate_pattern_consistency vel myoclonic <;>
      by_cases m3 : atonic.pattern_threshold <
          calculate_pattern_consistency vel atonic
    · have ha2 := hdet1 myoclonic hl m2
      have ha3 := hdet1 atonic hl m3
      simp only [detect_seizure_patterns, seizure_patterns, List.map_cons,
        List.map_nil, ha1, ha2, ha3, List.filter_cons, List.filter_nil,
        pick_best, List.foldl_cons, List.foldl_nil, eq_self_iff_true, if_true,
        Bool.false_eq_true, if_false]
      rw [if_neg (not_lt.mpr (hmc m2)), if_neg (not_lt.mpr (hat m3))]
      exact ⟨rfl, rfl⟩
    · have ha2 := hdet1 myoclonic hl m2
      have ha3 := hdet0 atonic m3
      simp only [detect_seizure_patterns, seizure_patterns, List.map_cons,
        List.map_nil, ha1, ha2, ha3, List.filter_cons, List.filter_nil,
        pick_best, List.foldl_cons, List.foldl_nil, eq_self_iff_true, if_true,
        Bool.false_eq_true, if_false]
      rw [if_neg (not_lt.mpr (hmc m2))]
      exact ⟨rfl, rfl⟩
    · have ha2 := hdet0 myoclonic m2
      have ha3 := hdet1 atonic hl m3
      simp only [detect_seizure_patterns, seizure_patterns, List.map_cons,
        List.map_nil, ha1, ha2, ha3, List.filter_cons, List.filter_nil,
        pick_best, List.foldl_cons, List.foldl_nil, eq_self_iff_true, if_true,
        Bool.false_eq_true, if_false]
      rw [if_neg (not_lt.mpr (hat m3))]
      exact ⟨rfl, rfl⟩
    · have ha2 := hdet0 myoclonic m2
      have ha3 := hdet0 atonic m3
      simp only [detect_seizure_patterns, seizure_patterns, List.map_cons,
        List.map_nil, ha1, ha2, ha3, List.filter_cons, List.filter_nil,
        pick_best, List.foldl_cons, List.foldl_nil, eq_self_iff_true, if_true,
        Bool.false_eq_true, if_false]
      exact ⟨trivial, trivial⟩
  · intro hl m2 htc hat
    have ha2 := hdet1 myoclonic hl m2
    by_cases m1 : tonic_clonic.pattern_threshold <
        calculate_pattern_consistency vel tonic_clonic <;>
      by_cases m3 : atonic.pattern_threshold <
          calculate_pattern_consistency vel atonic
    · have ha1 := hdet1 tonic_clonic hl m1
      have ha3 := hdet1 atonic hl m3
      simp only [detect_seizure_patterns, seizure_patterns, List.map_cons,
        List.map_nil, ha1, ha2, ha3, List.filter_cons, List.filter_nil,
        pick_best, List.foldl_cons, List.foldl_nil, eq_self_iff_true, if_true,
        Bool.false_eq_true, if_false]
      rw [if_pos (htc m1), if_neg (not_lt.mpr (hat m3))]
      exact ⟨rfl, rfl⟩
    · have ha1 := hdet1 tonic_clonic hl m1
      have ha3 := hdet0 atonic m3
      simp only [detect_seizure_patterns, seizure_patterns, List.map_cons,
        List.map_nil, ha1, ha2, ha3, List.filter_cons, List.filter_nil,
        pick_best, List.foldl_cons, List.foldl_nil, eq_self_iff_true, if_true,
        Bool.false_eq_true, if_false]
      rw [if_pos (htc m1)]
      exact ⟨rfl, rfl⟩
    · have ha1 := hdet0 tonic_clonic m1
      have ha3 := hdet1 atonic hl m3
      simp only [detect_seizure_patterns, seizure_patterns, List.map_cons,
        List.map_nil, ha1, ha2, ha3, List.filter_cons, List.filter_nil,
        pick_best, List.foldl_cons, List.foldl_nil, eq_self_iff_true, if_true,
        Bool.false_eq_true, if_false]
      rw [if_neg (not_lt.mpr (hat m3))]
      exact ⟨rfl, rfl⟩
    · have ha1 := hdet0 tonic_clonic m1
      have ha3 := hdet0 atonic m3
      simp only [detect_seizure_patterns, seizure_patterns, List.map_cons,
        List.map_nil, ha1, ha2, ha3, List.filter_cons, List.filter_nil,
        pick_best, List.foldl_cons, List.foldl_nil, eq_self_iff_true, if_true,
        Bool.false_eq_true, if_false]
      exact ⟨trivial, trivial⟩
  · intro hl m3 htc hmc
    have ha3 := hdet1 atonic hl m3
    by_cases m1 : tonic_clonic.pattern_threshold <
        calculate_pattern_consistency vel tonic_clonic <;>
      by_cases m2 : myoclonic.pattern_threshold <
          calculate_pattern_consistency vel myoclonic
    · have ha1 := hdet1 tonic_clonic hl m1
      have ha2 := hdet1 myoclonic hl m2
      simp only [detect_seizure_patterns, seizure_patterns, List.map_cons,
        List.map_nil, ha1, ha2, ha3, List.filter_cons, List.filter_nil,
        pick_best, List.foldl_cons, List.foldl_nil, eq_self_iff_true, if_true,
        Bool.false_eq_true, if_false]
      by_cases hcc : calculate_pattern_consistency vel tonic_clonic <
          calculate_pattern_consistency vel myoclonic
      · rw [if_pos hcc, if_pos (hmc m2)]
        exact ⟨rfl, rfl⟩
      · rw [if_neg hcc, if_pos (htc m1)]
        exact ⟨rfl, rfl⟩
    · have ha1 := hdet1 tonic_clonic hl m1
      have ha2 := hdet0 myoclonic m2
      simp only [detect_seizure_patterns, seizure_patterns, List.map_cons,
        List.map_nil, ha1, ha2, ha3, List.filter_cons, List.filter_nil,
        pick_best, List.foldl_cons, List.foldl_nil, eq_self_iff_true, if_true,
        Bool.false_eq_true, if_false]
      rw [if_pos (htc m1)]
      exact ⟨rfl, rfl⟩
    · have ha1 := hdet0 tonic_clonic m1
      have ha2 := hdet1 myoclonic hl m2
      simp only [detect_seizure_patterns, seizure_patterns, List.map_cons,
        List.map_nil, ha1, ha2, ha3, List.filter_cons, List.filter_nil,
        pick_best, List.foldl_cons, List.foldl_nil, eq_self_iff_true, if_true,
        Bool.false_eq_true, if_false]
      rw [if_pos (hmc m2)]
      exact ⟨rfl, rfl⟩
    · have ha1 := hdet0 tonic_clonic m1
      have ha2 := hdet0 myoclonic m2
      simp only [detect_seizure_patterns, seizure_patterns, List.map_cons,
        List.map_nil, ha1, ha2, ha3, List.filter_cons, List.filter_nil,
        pick_best, List.foldl_cons, List.foldl_nil, eq_self_iff_true, if_true,
        Bool.false_eq_true, if_false]
      exact ⟨trivial, trivial⟩

/-- C9 witness: one part moving at 150 px/frame ties all three patterns at
consistency 1; the first-declared pattern (tonic_clonic) wins. -/
theorem C9_witness :
    (0 < ([("nose", (150:ℚ))] : VelMap).length) ∧
    tonic_clonic.pattern_threshold <
      calculate_pattern_consistency [("nose", (150:ℚ))] tonic_clonic ∧
    (detect_seizure_patterns [("nose", (150:ℚ))]).pattern_type =
      tonic_clonic.description ∧
    (detect_seizure_patterns [("nose", (150:ℚ))]).confidence =
      calculate_pattern_consistency [("nose", (150:ℚ))] tonic_clonic := by
  have hc1 : calculate_pattern_consistency [("nose", (150:ℚ))] tonic_clonic = 1 := by
    unfold calculate_pattern_consistency
    norm_num [tonic_clonic, min_def, List.filter]
  have hc2 : calculate_pattern_consistency [("nose", (150:ℚ))] myoclonic = 1 := by
    unfold calculate_pattern_consistency
    norm_num [myoclonic, min_def, List.filter]
  have hc3 : calculate_pattern_consistency [("nose", (150:ℚ))] atonic = 1 := by
    unfold calculate_pattern_consistency
    norm_num [atonic, min_def, List.filter]
  have h := (C9_pattern_tiebreak [("nose", (150:ℚ))]).2.1 (by norm_num)
    (by rw [hc1]; norm_num [tonic_clonic])
    (fun _ => by rw [hc1, hc2])
    (fun _ => by rw [hc1, hc3])
  exact ⟨by norm_num, by rw [hc1]; norm_num [tonic_clonic], h.1, h.2⟩

end SeizureDetection
